import Mathlib

/-!
Shallow embedding of `src/SSHClientAJM/SSHClientAJM.py` (class `SSHClient`).

The script wraps the external paramiko SSH library.  The embedding models the
script's own control flow faithfully: paramiko outcomes (handshake accepted,
credentials rejected, other transport error; the bytes a command produces; the
chunks a channel read yields; interrupts raised while blocked on stdin) are
inputs to the Lean functions, and the script's observable behaviour (strings
sent on the channel, text printed, process exit, resulting session state) is
the output.  Python exceptions are modelled explicitly, including the rule
that an exception raised inside a `finally` block replaces the in-flight one.
-/

namespace SSHClientAJM

/-- The whitespace set of Python `str.strip()`: space, tab, newline, carriage
return, vertical tab, form feed. -/
def isPySpace (c : Char) : Bool :=
  c = ' ' || c = '\t' || c = '\n' || c = '\r' || c = Char.ofNat 11 || c = Char.ofNat 12

/-- Python `str.strip()`: drop leading and trailing whitespace. -/
def pyStrip (s : String) : String :=
  ⟨((s.data.dropWhile isPySpace).reverse.dropWhile isPySpace).reverse⟩

/-- Python truthiness of an optional string: `None` and `""` are falsy. -/
def pyFalsyStr : Option String → Bool
  | none => true
  | some s => s.isEmpty

/-- Python exceptions relevant to the script. -/
inductive PyExc where
  | keyboardInterrupt
  | systemExit (code : Nat)
  | otherError (msg : String)
deriving DecidableEq, Repr

/-- Outcome of a Python block: a value, or an exception in flight. -/
inductive PyFlow (α : Type) where
  | value (a : α)
  | raised (e : PyExc)
deriving DecidableEq, Repr

/-- Python `try/finally` semantics: an exception raised by the `finally` body
replaces whatever was in flight; if the `finally` body completes normally the
in-flight outcome continues. -/
def runFinally (inflight : PyFlow Unit) (fin : PyFlow Unit) : PyFlow Unit :=
  match fin with
  | .raised e => .raised e
  | .value _ => inflight

/-- A paramiko `Transport` as the script observes it: `is_active()` either
returns a Bool or the probe attribute is unavailable (an `AttributeError`,
modelled as `none`). -/
structure Transport where
  activeProbe : Option Bool
deriving DecidableEq, Repr

/-- A paramiko `SSHClient` handle as the script observes it: `get_transport()`
returns the transport or `None` (modelled as `none`). -/
structure ClientHandle where
  transport : Option Transport
deriving DecidableEq, Repr

/-- `SSHClient.is_connected` (lines 98-103):
`try: return self.client.get_transport().is_active() except AttributeError:
return False`.  A `none` at any level (`self.client` is `None`,
`get_transport()` is `None`, the probe unavailable) raises `AttributeError`
in Python, which the code catches, returning `False`. -/
def is_connected (client : Option ClientHandle) : Bool :=
  match client with
  | none => false
  | some c =>
    match c.transport with
    | none => false
    | some t =>
      match t.activeProbe with
      | none => false
      | some b => b

/-- Connection state of a session as the spec names it. -/
inductive SessionState where
  | disconnected
  | connected
  | closed
deriving DecidableEq, Repr

/-- The client handle a session in a given state presents to `is_connected`:
before `connect()` paramiko has no transport; after a successful `connect()`
the transport is active; after `close()` the transport reports inactive. -/
def handleFor : SessionState → Option ClientHandle
  | .disconnected => some ⟨none⟩
  | .connected => some ⟨some ⟨some true⟩⟩
  | .closed => some ⟨some ⟨some false⟩⟩

/-- What a remote `exec_command` produced: raw stdout and stderr text. -/
structure ExecStreams where
  stdoutText : String
  stderrText : String
deriving DecidableEq, Repr

/-- `SSHClient.send_command` (lines 133-159).  Inputs: the client handle (for
the `is_connected` guard) and the outcome of `exec_command` (streams, or an
exception message).  Output: the returned string or the raised exception
message, paired with the number of `exec_command` transport calls made. -/
def send_command (client : Option ClientHandle) (command : String)
    (outcome : Except String ExecStreams) : Except String String × Nat :=
  if is_connected client then
    match outcome with
    | .error e =>
      (.error ("Failed to execute command " ++ command ++ ": " ++ e), 1)
    | .ok st =>
      let stdout_content := pyStrip st.stdoutText
      let stderr_content := pyStrip st.stderrText
      if stderr_content.isEmpty then (.ok stdout_content, 1)
      else
        (.ok ("STDOUT:\n" ++ stdout_content ++ "\n\nSTDERR:\n" ++ stderr_content), 1)
  else
    (.error "Not connected to the server. Call connect() first.", 0)

/-- State of one `SSHClient` instance as far as its own code can change it. -/
structure SessionModel where
  clientOpen : Bool
  channelOpen : Bool
  state : SessionState
deriving DecidableEq, Repr

/-- `SSHClient.close` (lines 161-175): `self.client.close()` (closing the
transport also closes any channel bound to it), print the closure notice,
then `exit(exit_code)` - which in Python raises `SystemExit(exit_code)`.
Returns the session afterwards, the printed lines, and the raised flow. -/
def close (s : SessionModel) (exit_code : Nat) :
    SessionModel × List String × PyFlow Unit :=
  ({ s with clientOpen := false, channelOpen := false, state := .closed },
   ["🔒 SSH session closed."], .raised (.systemExit exit_code))

/-- What the paramiko handshake did with the given credentials. -/
inductive HandshakeOutcome where
  | accepted
  | authRejected
  | otherError (msg : String)
deriving DecidableEq, Repr

/-- A live channel returned by `invoke_shell`. -/
structure Channel where
  isOpen : Bool
deriving DecidableEq, Repr

/-- Everything observable about one `connect()` call. -/
structure ConnectResult where
  channel : Option Channel
  session : SessionModel
  printed : List String
  flow : PyFlow Unit
  connectCalls : Nat
deriving DecidableEq, Repr

/-- `SSHClient.connect` (lines 105-131).  One `client.connect` transport call
is made; on success `invoke_shell` yields the channel and the method returns
it; on `AuthenticationException` or any other exception the handler prints a
notice and calls `close(1)`, so the process exits with code 1. -/
def connect (username hostname : String) (port : Nat)
    (outcome : HandshakeOutcome) : ConnectResult :=
  let connecting :=
    "🔌 Connecting to " ++ username ++ "@" ++ hostname ++ ":" ++
      toString port ++ "..."
  match outcome with
  | .accepted =>
    { channel := some ⟨true⟩
      session := ⟨true, true, .connected⟩
      printed := [connecting, "✅ Connected."]
      flow := .value ()
      connectCalls := 1 }
  | .authRejected =>
    let (s, closeMsgs, fl) := close ⟨true, false, .disconnected⟩ 1
    { channel := none
      session := s
      printed := [connecting, "❌ Authentication failed."] ++ closeMsgs
      flow := fl
      connectCalls := 1 }
  | .otherError e =>
    let (s, closeMsgs, fl) := close ⟨true, false, .disconnected⟩ 1
    { channel := none
      session := s
      printed := [connecting, "❌ SSH connection error: " ++ e] ++ closeMsgs
      flow := fl
      connectCalls := 1 }

/-- One interactive prompt issued during `__init__`: its message and whether
the typed input is echoed (`input` echoes, `getpass.getpass` does not). -/
structure Prompt where
  message : String
  echo : Bool
deriving DecidableEq, Repr

/-- Constructor arguments of `SSHClient.__init__`: all optional. -/
structure InitArgs where
  hostname : Option String
  port : Option Nat
  username : Option String
  password : Option String
deriving DecidableEq, Repr

/-- The resolved credential fields plus the prompts that were issued. -/
structure InitResult where
  hostname : String
  port : Nat
  username : String
  password : String
  prompts : List Prompt
deriving DecidableEq, Repr

/-- `SSHClient.__init__` together with `_set_defaults` (lines 51-67).
`self.port = port or 22` (so `None` and `0` both default to 22);
`_set_defaults` prompts via `input` for a falsy hostname or username and via
`getpass.getpass` (no echo) for a falsy password.  The port is never
prompted.  `hostIn`, `userIn`, `passIn` are what the user would type. -/
def sshclient_init (args : InitArgs) (hostIn userIn passIn : String) :
    InitResult :=
  { hostname := if pyFalsyStr args.hostname then hostIn else args.hostname.getD ""
    port := match args.port with
      | none => 22
      | some p => if p = 0 then 22 else p
    username := if pyFalsyStr args.username then userIn else args.username.getD ""
    password := if pyFalsyStr args.password then passIn else args.password.getD ""
    prompts :=
      (if pyFalsyStr args.hostname then [Prompt.mk "Please Enter Hostname: " true]
        else [])
      ++ (if pyFalsyStr args.username then [Prompt.mk "Please Enter Username: " true]
        else [])
      ++ (if pyFalsyStr args.password then [Prompt.mk "Please Enter Password: " false]
        else []) }

/-- `SSHClient._write_all_to_stdout` (lines 177-192).  The input list is the
successive results of `sock.recv(1024)`; the loop breaks at the first empty
chunk.  Returns the chunks written (and flushed) to stdout, in order, and
the number of flushes (one after every write). -/
def write_all_to_stdout : List (List Nat) → List (List Nat) × Nat
  | [] => ([], 0)
  | data :: rest =>
    if data.isEmpty then ([], 0)
    else
      let r := write_all_to_stdout rest
      (data :: r.1, r.2 + 1)

/-- One result of `sys.stdin.readline()` inside `_stream_loop`: either a line
(`""` models end-of-input) or a `KeyboardInterrupt` raised while blocked. -/
inductive StdinEvent where
  | line (s : String)
  | interrupt
deriving DecidableEq, Repr

/-- How the `while True` body of `_stream_loop` was left. -/
inductive LoopExit where
  | eofExit
  | interrupted
  | sendError
deriving DecidableEq, Repr

/-- The interactive iterations of the `while True` body of
`SSHClient._stream_loop` (lines 224-233), reached whenever `command` is falsy:
`command = sys.stdin.readline(); if not command: break;
self._connection_channel.send(command); command = None`.  `failAt` states at
which send count (if any) `channel.send` raises; `sent` counts sends so far.
An exhausted event list behaves like end-of-input (after EOF `readline`
returns `""` forever).  Returns the strings sent, in order, and the exit. -/
def stream_loop_go_lines (failAt : Option Nat) :
    Nat → List StdinEvent → List String × LoopExit
  | _sent, [] => ([], .eofExit)
  | _sent, .interrupt :: _ => ([], .interrupted)
  | sent, .line l :: evs =>
    if l.isEmpty then ([], .eofExit)
    else if failAt = some sent then ([], .sendError)
    else
      let r := stream_loop_go_lines failAt (sent + 1) evs
      (l :: r.1, r.2)

/-- The full `while True` body of `_stream_loop`.  When `command` is truthy
the first iteration runs `command = command + "\n"` (never empty, so no
break), sends it, and sets `command = None`; every later iteration is the
interactive `stream_loop_go_lines` path.  When `command` is falsy (`None` or
`""`) the loop is interactive from the start. -/
def stream_loop_go (failAt : Option Nat) (command : Option String)
    (events : List StdinEvent) : List String × LoopExit :=
  match command with
  | none => stream_loop_go_lines failAt 0 events
  | some c =>
    if c.isEmpty then stream_loop_go_lines failAt 0 events
    else if failAt = some 0 then ([], .sendError)
    else
      let r := stream_loop_go_lines failAt 1 events
      ((c ++ "\n") :: r.1, r.2)

/-- Everything observable about one `_stream_loop` call. -/
structure StreamLoopResult where
  sends : List String
  notices : List String
  session : SessionModel
  closePrinted : List String
  flow : PyFlow Unit
deriving DecidableEq, Repr

/-- `SSHClient._stream_loop` (lines 212-237): the loop body wrapped in
`try ... except KeyboardInterrupt: print(notice) ... finally: self.close(0)`.
A send exception propagates past the `except KeyboardInterrupt` handler; the
`finally` then runs `close(0)`, whose `exit(0)` raises `SystemExit(0)`,
replacing any in-flight exception (`runFinally`). -/
def stream_loop (command : Option String) (events : List StdinEvent)
    (failAt : Option Nat) (s : SessionModel) : StreamLoopResult :=
  let r := stream_loop_go failAt command events
  let afterExcept : PyFlow Unit × List String :=
    match r.2 with
    | .eofExit => (.value (), [])
    | .interrupted => (.value (), ["\n✋ Disconnected by user."])
    | .sendError => (.raised (.otherError "channel send error"), [])
  let c := close s 0
  { sends := r.1
    notices := afterExcept.2
    session := c.1
    closePrinted := c.2.1
    flow := runFinally afterExcept.1 c.2.2 }

/-- `SSHClient.get_interactive_shell` (lines 240-256): guard on
`is_connected`, then start the writer daemon and run `_stream_loop` with no
command.  The Bool records whether the daemon was started (i.e. whether any
transport I/O began). -/
def get_interactive_shell (client : Option ClientHandle)
    (events : List StdinEvent) (failAt : Option Nat) (s : SessionModel) :
    Except String StreamLoopResult × Bool :=
  if is_connected client then (.ok (stream_loop none events failAt s), true)
  else (.error "Not connected to server, connect first", false)

/-- `SSHClient.non_interactive_stream` (lines 258-274): same guard, then
`_stream_loop(command)`. -/
def non_interactive_stream (client : Option ClientHandle) (command : String)
    (events : List StdinEvent) (failAt : Option Nat) (s : SessionModel) :
    Except String StreamLoopResult × Bool :=
  if is_connected client then
    (.ok (stream_loop (some command) events failAt s), true)
  else (.error "Not connected to server, connect first", false)

/-! ## Helper lemmas -/

/-- The head surviving a `dropWhile` does not satisfy the predicate. -/
theorem head_dropWhile_false (p : Char → Bool) (l : List Char) :
    ∀ c, (l.dropWhile p).head? = some c → p c = false := by
  induction l with
  | nil => intro c h; simp [List.dropWhile] at h
  | cons a l ih =>
    intro c h
    rw [List.dropWhile_cons] at h
    by_cases hp : p a
    · rw [if_pos hp] at h
      exact ih c h
    · rw [if_neg hp] at h
      simp only [List.head?_cons, Option.some.injEq] at h
      subst h
      simpa using hp

/-- `pyStrip` unfolded on the character list. -/
theorem pyStrip_data (s : String) :
    (pyStrip s).data
      = ((s.data.dropWhile isPySpace).reverse.dropWhile isPySpace).reverse := rfl

/-- The inner `dropWhile` splits the once-stripped list from the back. -/
theorem pyStrip_inner_split (s : String) :
    s.data.dropWhile isPySpace
      = (pyStrip s).data
        ++ ((s.data.dropWhile isPySpace).reverse.takeWhile isPySpace).reverse := by
  have hsplit :
      (s.data.dropWhile isPySpace).reverse.takeWhile isPySpace
        ++ (s.data.dropWhile isPySpace).reverse.dropWhile isPySpace
      = (s.data.dropWhile isPySpace).reverse :=
    List.takeWhile_append_dropWhile isPySpace _
  have h2 := congrArg List.reverse hsplit
  rw [List.reverse_append, List.reverse_reverse] at h2
  rw [pyStrip_data]
  exact h2.symm

/-- The first character of a stripped string is not whitespace. -/
theorem pyStrip_head_not_space (s : String) :
    ∀ c, (pyStrip s).data.head? = some c → isPySpace c = false := by
  intro c h
  have hh : (s.data.dropWhile isPySpace).head? = some c := by
    rw [pyStrip_inner_split s, List.head?_append, h]
    rfl
  exact head_dropWhile_false isPySpace s.data c hh

/-- The last character of a stripped string is not whitespace. -/
theorem pyStrip_getLast_not_space (s : String) :
    ∀ c, (pyStrip s).data.getLast? = some c → isPySpace c = false := by
  intro c h
  rw [pyStrip_data, List.getLast?_reverse] at h
  exact head_dropWhile_false isPySpace _ c h

/-- `pyStrip` removes a leading and a trailing run of whitespace and nothing
else. -/
theorem pyStrip_decomp (s : String) :
    ∃ pre post, s.data = pre ++ (pyStrip s).data ++ post
      ∧ (∀ c ∈ pre, isPySpace c = true) ∧ ∀ c ∈ post, isPySpace c = true := by
  refine ⟨s.data.takeWhile isPySpace,
    ((s.data.dropWhile isPySpace).reverse.takeWhile isPySpace).reverse,
    ?_, ?_, ?_⟩
  · conv_lhs => rw [← List.takeWhile_append_dropWhile isPySpace s.data,
      pyStrip_inner_split s]
    rw [List.append_assoc]
  · intro c hc
    exact List.mem_takeWhile_imp hc
  · intro c hc
    rw [List.mem_reverse] at hc
    exact List.mem_takeWhile_imp hc

/-! ## Claim theorems -/

/-- C1: when the transport accepts the handshake, `connect` leaves the
session `Connected` and returns a non-null channel; when it rejects the
credentials, `connect` prints the authentication-failure notice, makes no
second connect attempt, leaves the session `Closed`, and the process
terminates with exit code 1 (`SystemExit 1` raised by `close(1)`). -/
theorem C1_connect_auth (username hostname : String) (port : Nat) :
    ((connect username hostname port .accepted).session.state
        = SessionState.connected
      ∧ (connect username hostname port .accepted).channel.isSome = true)
    ∧ ("❌ Authentication failed."
          ∈ (connect username hostname port .authRejected).printed
      ∧ (connect username hostname port .authRejected).session.state
          = SessionState.closed
      ∧ (connect username hostname port .authRejected).connectCalls = 1
      ∧ (connect username hostname port .authRejected).flow
          = PyFlow.raised (PyExc.systemExit 1)) := by
  refine ⟨⟨rfl, rfl⟩, ?_, rfl, rfl, rfl⟩
  simp [connect, close]

/-- C2 (claim is the spec's intent; the code diverges): with
`singleCommand = "uptime"` the loop does send `"uptime\n"` exactly once, but
it does not terminate on the same turn - it falls through to the interactive
path and keeps relaying stdin lines (here `"ls\n"`) until end-of-input. -/
theorem C2_single_command_not_terminating :
    (stream_loop (some "uptime") [StdinEvent.line "ls\n"] none
        ⟨true, true, .connected⟩).sends = ["uptime\n", "ls\n"]
    ∧ (stream_loop (some "uptime") [] none
        ⟨true, true, .connected⟩).sends = ["uptime\n"] :=
  ⟨rfl, rfl⟩

/-- C3: `is_connected` is a total Bool-valued query (it cannot throw and has
no effect on its input); it returns `true` exactly when a client handle
exists, the handle has a transport, and the liveness probe reports active -
so it returns `false` whenever the handle or transport is absent or the
probe itself is unavailable. -/
theorem C3_is_connected_spec (client : Option ClientHandle) :
    is_connected client = true
      ↔ ∃ cl t, client = some cl ∧ cl.transport = some t
          ∧ t.activeProbe = some true := by
  constructor
  · intro h
    match client with
    | none => simp [is_connected] at h
    | some cl =>
      match hcl : cl.transport with
      | none => simp [is_connected, hcl] at h
      | some t =>
        match ht : t.activeProbe with
        | none => simp [is_connected, hcl, ht] at h
        | some b =>
          refine ⟨cl, t, rfl, hcl, ?_⟩
          simp [is_connected, hcl, ht] at h
          rw [ht, h]
  · rintro ⟨cl, t, rfl, hcl, ht⟩
    simp [is_connected, hcl, ht]

/-- C4: on every exit path of `_stream_loop` (end-of-input, interrupt, send
error) the `finally` block runs `close(0)`, so the transport and with it the
channel are closed and the session is `Closed`; a `KeyboardInterrupt` while
blocked on stdin prints exactly the documented cancellation notice, and the
only thing raised past the handler is the `SystemExit 0` by which `close`
terminates the process - no error reaches the caller. -/
theorem C4_stream_loop_cleanup (command : Option String)
    (events : List StdinEvent) (failAt : Option Nat) (s : SessionModel) :
    ((stream_loop command events failAt s).session.state = SessionState.closed
      ∧ (stream_loop command events failAt s).session.channelOpen = false
      ∧ (stream_loop command events failAt s).session.clientOpen = false)
    ∧ ((stream_loop none (StdinEvent.interrupt :: events) failAt s).notices
          = ["\n✋ Disconnected by user."]
      ∧ (stream_loop none (StdinEvent.interrupt :: events) failAt s).flow
          = PyFlow.raised (PyExc.systemExit 0)) :=
  ⟨⟨rfl, rfl, rfl⟩, rfl, rfl⟩

/-- C9: the `finally` block of `_stream_loop` always calls `close(0)`, whose
`exit(0)` raises `SystemExit(0)`; by Python's `finally` semantics that
replaces any in-flight exception (including a channel send error), so the
relay phase always terminates the process with exit code 0 - a mid-session
error can never yield a nonzero exit code. -/
theorem C9_exit_code_zero (command : Option String) (events : List StdinEvent)
    (failAt : Option Nat) (s : SessionModel) :
    (stream_loop command events failAt s).flow
      = PyFlow.raised (PyExc.systemExit 0) := rfl

/-- C5 counterexample: `send_command` does not return the stdout text
exactly - with `stdout = "hello\n"` and empty stderr it returns the stripped
`"hello"`; and with whitespace-only (hence non-empty) stderr it returns the
stdout text alone, with no stdout/stderr labels. -/
theorem C5_counterexample :
    ((send_command (handleFor .connected) "echo hello"
        (.ok ⟨"hello\n", ""⟩)).1 = .ok "hello"
      ∧ "hello" ≠ "hello\n")
    ∧ ((send_command (handleFor .connected) "echo hello"
        (.ok ⟨"hello", " \n"⟩)).1 = .ok "hello"
      ∧ " \n" ≠ "") := by
  exact ⟨⟨rfl, by decide⟩, rfl, by decide⟩

/-- C5 (amended): when the remote execution yields stdout `out` and stderr
`err`, `send_command` returns the whitespace-stripped `out` alone if the
stripped `err` is empty, and otherwise a single string containing both the
stripped `out` and the stripped `err` labeled `STDOUT:` / `STDERR:`. -/
theorem C5_send_command_output (command out err : String) :
    (pyStrip err = "" →
      (send_command (handleFor .connected) command (.ok ⟨out, err⟩)).1
        = .ok (pyStrip out))
    ∧ (pyStrip err ≠ "" →
      (send_command (handleFor .connected) command (.ok ⟨out, err⟩)).1
        = .ok ("STDOUT:\n" ++ pyStrip out ++ "\n\nSTDERR:\n" ++ pyStrip err)) := by
  constructor
  · intro h
    have he : (pyStrip err).isEmpty = true := by rw [h]; rfl
    simp [send_command, handleFor, is_connected, he]
  · intro h
    simp [send_command, handleFor, is_connected, String.isEmpty_iff, h]

/-- C6: with the session `Disconnected` (no transport yet) or `Closed`
(transport inactive), `send_command` and `get_interactive_shell` raise the
not-connected error before any transport I/O: no `exec_command` call is made
(count 0) and the writer daemon is never started (flag false). -/
theorem C6_not_connected_guard (st : SessionState)
    (hst : st = SessionState.disconnected ∨ st = SessionState.closed)
    (command : String) (outcome : Except String ExecStreams)
    (events : List StdinEvent) (failAt : Option Nat) (s : SessionModel) :
    send_command (handleFor st) command outcome
        = (.error "Not connected to the server. Call connect() first.", 0)
    ∧ get_interactive_shell (handleFor st) events failAt s
        = (.error "Not connected to server, connect first", false) := by
  rcases hst with h | h <;> subst h <;> exact ⟨rfl, rfl⟩

/-- C6 witness: the guard at the `Closed` state on a concrete call. -/
theorem C6_not_connected_guard_witness :
    send_command (handleFor .closed) "ls" (.ok ⟨"x", ""⟩)
        = (.error "Not connected to the server. Call connect() first.", 0)
    ∧ get_interactive_shell (handleFor .closed) [] none ⟨true, false, .closed⟩
        = (.error "Not connected to server, connect first", false) :=
  C6_not_connected_guard .closed (Or.inr rfl) "ls" (.ok ⟨"x", ""⟩) [] none
    ⟨true, false, .closed⟩

/-- C7: for a channel delivering the non-empty chunks `chunks` (each at most
1024 bytes, as `recv(1024)` returns) followed by a zero-length read, the
reader writes exactly those chunks to stdout in order - the concatenation of
what is written equals the concatenation delivered, with no loss and no
duplication - flushes once after every chunk, and terminates at the
zero-length read. -/
theorem C7_reader_reproduces (chunks : List (List Nat))
    (hne : ∀ c ∈ chunks, c ≠ [])
    (hsz : ∀ c ∈ chunks, c.length ≤ 1024) :
    (write_all_to_stdout (chunks ++ [[]])).1 = chunks
    ∧ (write_all_to_stdout (chunks ++ [[]])).1.flatten = chunks.flatten
    ∧ (write_all_to_stdout (chunks ++ [[]])).2 = chunks.length := by
  have key : ∀ l : List (List Nat), (∀ c ∈ l, c ≠ []) →
      (write_all_to_stdout (l ++ [[]])).1 = l
      ∧ (write_all_to_stdout (l ++ [[]])).2 = l.length := by
    intro l
    induction l with
    | nil => intro _; exact ⟨rfl, rfl⟩
    | cons c cs ih =>
      intro h
      have hc : c.isEmpty = false := by
        have hcne := h c (by simp)
        cases c with
        | nil => exact absurd rfl hcne
        | cons a as => rfl
      have ihcs := ih fun x hx => h x (by simp [hx])
      simp [write_all_to_stdout, hc, ihcs.1, ihcs.2]
  refine ⟨(key chunks hne).1, ?_, (key chunks hne).2⟩
  rw [(key chunks hne).1]

/-- C7 witness: the reader on the concrete chunk sequence `[104,105]`,
`[10]`, then a zero-length read. -/
theorem C7_reader_reproduces_witness :
    (write_all_to_stdout ([[104, 105], [10]] ++ [[]])).1 = [[104, 105], [10]]
    ∧ (write_all_to_stdout ([[104, 105], [10]] ++ [[]])).1.flatten
        = ([[104, 105], [10]] : List (List Nat)).flatten
    ∧ (write_all_to_stdout ([[104, 105], [10]] ++ [[]])).2
        = ([[104, 105], [10]] : List (List Nat)).length :=
  C7_reader_reproduces [[104, 105], [10]] (by decide) (by decide)

/-- C8 counterexample: with none of the four fields supplied, `__init__`
issues exactly three prompts - hostname, username, password - and no prompt
for the port, which silently defaults to 22; so not every unsupplied field
is prompted for. -/
theorem C8_counterexample :
    (sshclient_init ⟨none, none, none, none⟩ "pihole" "adm" "pw").prompts
      = [⟨"Please Enter Hostname: ", true⟩, ⟨"Please Enter Username: ", true⟩,
         ⟨"Please Enter Password: ", false⟩]
    ∧ (sshclient_init ⟨none, none, none, none⟩ "pihole" "adm" "pw").port = 22 :=
  ⟨rfl, rfl⟩

/-- C8 (amended): during credential resolution any of host, username and
password the caller did not supply (or supplied empty) is prompted for
interactively; the password prompt does not echo; the port is never prompted
and defaults to 22 when unset or 0. -/
theorem C8_credential_resolution (args : InitArgs) (hostIn userIn passIn : String) :
    (pyFalsyStr args.hostname = true →
      Prompt.mk "Please Enter Hostname: " true
        ∈ (sshclient_init args hostIn userIn passIn).prompts)
    ∧ (pyFalsyStr args.username = true →
      Prompt.mk "Please Enter Username: " true
        ∈ (sshclient_init args hostIn userIn passIn).prompts)
    ∧ (pyFalsyStr args.password = true →
      Prompt.mk "Please Enter Password: " false
        ∈ (sshclient_init args hostIn userIn passIn).prompts)
    ∧ (∀ pr ∈ (sshclient_init args hostIn userIn passIn).prompts,
        pr.message = "Please Enter Password: " → pr.echo = false)
    ∧ (∀ pr ∈ (sshclient_init args hostIn userIn passIn).prompts,
        pr.message = "Please Enter Hostname: "
        ∨ pr.message = "Please Enter Username: "
        ∨ pr.message = "Please Enter Password: ")
    ∧ ((args.port = none ∨ args.port = some 0) →
        (sshclient_init args hostIn userIn passIn).port = 22) := by
  refine ⟨?_, ?_, ?_, ?_, ?_, ?_⟩
  · intro h; simp [sshclient_init, h]
  · intro h; simp [sshclient_init, h]
  · intro h; simp [sshclient_init, h]
  · intro pr hpr hmsg
    simp only [sshclient_init, List.mem_append] at hpr
    rcases hpr with (hpr | hpr) | hpr <;>
      [skip; skip; skip] <;>
      · split at hpr <;> simp at hpr <;> subst hpr <;> simp_all
  · intro pr hpr
    simp only [sshclient_init, List.mem_append] at hpr
    rcases hpr with (hpr | hpr) | hpr <;>
      · split at hpr <;> simp at hpr <;> subst hpr <;> simp
  · rintro (h | h) <;> simp [sshclient_init, h]

/-- C10: `send_command` strips leading and trailing whitespace - the Python
whitespace set, which contains the newline - from both the stdout and the
stderr text (the stripped text is the original minus a leading and a
trailing all-whitespace run, and itself starts and ends with
non-whitespace); when the stripped stderr is empty the return value is the
stripped stdout alone, with no stream label, and otherwise both labeled
streams. -/
theorem C10_send_command_strips (command out err : String) :
    ((pyStrip err = "" →
        (send_command (handleFor .connected) command (.ok ⟨out, err⟩)).1
          = .ok (pyStrip out))
      ∧ (pyStrip err ≠ "" →
        (send_command (handleFor .connected) command (.ok ⟨out, err⟩)).1
          = .ok ("STDOUT:\n" ++ pyStrip out ++ "\n\nSTDERR:\n" ++ pyStrip err)))
    ∧ isPySpace '\n' = true
    ∧ (∃ pre post, out.data = pre ++ (pyStrip out).data ++ post
        ∧ (∀ c ∈ pre, isPySpace c = true) ∧ ∀ c ∈ post, isPySpace c = true)
    ∧ (∀ c, (pyStrip out).data.head? = some c → isPySpace c = false)
    ∧ (∀ c, (pyStrip out).data.getLast? = some c → isPySpace c = false)
    ∧ (∃ pre post, err.data = pre ++ (pyStrip err).data ++ post
        ∧ (∀ c ∈ pre, isPySpace c = true) ∧ ∀ c ∈ post, isPySpace c = true)
    ∧ (∀ c, (pyStrip err).data.head? = some c → isPySpace c = false)
    ∧ (∀ c, (pyStrip err).data.getLast? = some c → isPySpace c = false) := by
  refine ⟨?_, rfl, pyStrip_decomp out, pyStrip_head_not_space out,
    pyStrip_getLast_not_space out, pyStrip_decomp err,
    pyStrip_head_not_space err, pyStrip_getLast_not_space err⟩
  constructor
  · intro h
    have he : (pyStrip err).isEmpty = true := by rw [h]; rfl
    simp [send_command, handleFor, is_connected, he]
  · intro h
    simp [send_command, handleFor, is_connected, String.isEmpty_iff, h]

end SSHClientAJM
